import Mathlib

set_option maxRecDepth 4000

/-!
Verification of the news-digest pipeline in `tech_news_automation.py`
(class `IndiaNewsDigest`): relevance scoring, freshness filtering,
fingerprint-based deduplication, cache lifecycle, ranking and truncation.

The Python code is shallowly embedded: strings are Lean `String`s,
`datetime` values are an explicit record of calendar fields, the
fingerprint hash is a full MD5 implementation over UTF-8 bytes, the feed
collaborator is abstracted as per-source input data (a fetch either
fails or yields a list of entries), and the persisted JSON cache file is
a list of (fingerprint, timestamp) pairs (timestamps as seconds, the ISO
serialization being invertible plumbing).
-/

namespace NewsDigest

/-! ## String helpers (Python `str.lower` and the `in` substring test).
All keyword tables and source names are ASCII, so ASCII lowercasing
coincides with Python's Unicode lowercasing on every relevant string. -/

/-- Python `s.lower()` (ASCII). -/
def lowerStr (s : String) : String :=
  ⟨s.data.map Char.toLower⟩

/-- Python `needle in haystack` on the underlying character lists. -/
def isSubChars : List Char → List Char → Bool
  | n, [] => n.isEmpty
  | n, c :: t => n.isPrefixOf (c :: t) || isSubChars n t

/-- Python `needle in haystack` for strings. -/
def containsSub (haystack needle : String) : Bool :=
  isSubChars needle.data haystack.data

/-! ## Keyword taxonomy (`self.upsc_keywords`, `self.upsc_subjects`). -/

/-- `upsc_keywords['high']` (weight 5). -/
def upsc_keywords_high : List String :=
  ["UPSC", "Civil Services", "IAS", "IPS", "IFS", "Prelims", "Mains",
   "GS Paper", "Current Affairs", "Government Scheme", "Policy", "Act",
   "Amendment", "Bill", "Ordinance", "Parliament", "Constitution",
   "Supreme Court", "Judgment", "Landmark Case"]

/-- `upsc_keywords['medium']` (weight 3). -/
def upsc_keywords_medium : List String :=
  ["Economy", "GDP", "Inflation", "Fiscal", "Monetary", "RBI", "Budget",
   "Agriculture", "Farmers", "Rural", "Employment", "Skill Development",
   "Education", "Health", "Healthcare", "Infrastructure", "Transport",
   "Environment", "Climate", "Pollution", "Sustainable", "Renewable",
   "Technology", "Digital", "AI", "Startup", "Innovation", "Science",
   "Research", "Space", "Defence", "Security", "International", "Diplomacy"]

/-- `upsc_keywords['low']` (weight 1). -/
def upsc_keywords_low : List String :=
  ["State", "Regional", "Development", "Social", "Welfare", "Women",
   "Children", "Senior Citizens", "Minorities", "Tribal", "SC/ST",
   "Urban", "Smart City", "Tourism", "Culture", "Heritage", "History",
   "Geography", "Disaster", "Management", "Governance", "Transparency"]

/-- `govt_sources` in `calculate_upsc_score`. -/
def govt_sources : List String :=
  ["pib", "dd news", "air news", "mea", "isro", "csir"]

/-- One keyword occurs (case-insensitively, as a substring) in a text. -/
def kwMatch (text keyword : String) : Bool :=
  containsSub (lowerStr text) (lowerStr keyword)

/-- `IndiaNewsDigest.calculate_upsc_score`: three per-tier accumulation
loops (5/3/1 points per matching keyword) plus a flat +2 bonus when any
government source name occurs in the lowered text. -/
def calculate_upsc_score (text : String) : Nat :=
  let text_lower := lowerStr text
  let s1 := upsc_keywords_high.foldl
    (fun score keyword => if containsSub text_lower (lowerStr keyword) then score + 5 else score) 0
  let s2 := upsc_keywords_medium.foldl
    (fun score keyword => if containsSub text_lower (lowerStr keyword) then score + 3 else score) s1
  let s3 := upsc_keywords_low.foldl
    (fun score keyword => if containsSub text_lower (lowerStr keyword) then score + 1 else score) s2
  if govt_sources.any (fun source => containsSub text_lower source) then s3 + 2 else s3

/-- Restatement of the score from the spec's words: the sum over all
tiers of (tier weight × number of tier phrases occurring in the text),
plus a flat bonus of 2 if any government source name occurs. Compared
against `calculate_upsc_score` in claim C1. -/
def upsc_score_spec (text : String) : Nat :=
  5 * (upsc_keywords_high.countP (fun k => kwMatch text k))
    + 3 * (upsc_keywords_medium.countP (fun k => kwMatch text k))
    + 1 * (upsc_keywords_low.countP (fun k => kwMatch text k))
    + (if govt_sources.any (fun source => containsSub (lowerStr text) source) then 2 else 0)

/-- `self.upsc_subjects` (category → keyword list, in insertion order). -/
def upsc_subjects_table : List (String × List String) :=
  [("polity", ["Constitution", "Parliament", "President", "Governor", "Judiciary",
               "Fundamental Rights", "Directive Principles", "Amendment"]),
   ("economy", ["GDP", "Inflation", "Fiscal Policy", "Monetary Policy", "Budget",
                "Banking", "Taxation", "Subsidy", "WTO", "IMF", "World Bank"]),
   ("history", ["Ancient", "Medieval", "Modern", "Independence", "Freedom Struggle",
                "Mahatma Gandhi", "Jawaharlal Nehru", "Sardar Patel"]),
   ("geography", ["Climate", "Monsoon", "Soil", "Agriculture", "Mineral", "Resources",
                  "River", "Mountain", "Forest", "Biodiversity"]),
   ("environment", ["Pollution", "Climate Change", "Conservation", "Wildlife",
                    "Sustainable Development", "Renewable Energy", "Paris Agreement"]),
   ("science", ["ISRO", "Space", "Technology", "Nuclear", "Defence", "Research",
                "Innovation", "AI", "Robotics", "Biotechnology"]),
   ("international", ["UN", "WTO", "WHO", "SAARC", "BRICS", "G20", "ASEAN",
                      "Bilateral", "Diplomacy", "Foreign Policy"])]

/-- `IndiaNewsDigest.categorize_upsc_subject`: a subject is appended
(in table order) as soon as one of its keywords matches. -/
def categorize_upsc_subject (text : String) : List String :=
  let text_lower := lowerStr text
  (upsc_subjects_table.filter
    (fun p => p.2.any (fun keyword => containsSub text_lower (lowerStr keyword)))).map (·.1)

end NewsDigest

namespace NewsDigest

/-! ## `datetime` model and the multi-format date parsing of
`is_fresh_article`. A parsed value records the calendar fields plus the
UTC offset (seconds) when the format supplied one; `datetime.strptime`
defaults are year 1900, month 1, day 1, midnight, no timezone. -/

/-- A Python `datetime` value (proleptic Gregorian calendar). -/
structure DateTime where
  year : Nat
  month : Nat
  day : Nat
  hour : Nat
  minute : Nat
  second : Nat
  tzOffsetSecs : Option Int
deriving Repr, DecidableEq

/-- `datetime.strptime` field defaults (year 1900, naive midnight). -/
def strptimeDefault : DateTime :=
  { year := 1900, month := 1, day := 1, hour := 0, minute := 0, second := 0,
    tzOffsetSecs := none }

def isLeapYear (y : Nat) : Bool :=
  y % 4 == 0 && (y % 100 != 0 || y % 400 == 0)

def daysInMonth (y m : Nat) : Nat :=
  if m == 2 then (if isLeapYear y then 29 else 28)
  else if m == 4 || m == 6 || m == 9 || m == 11 then 30
  else 31

/-- The range checks of the `datetime` constructor (which
`datetime.strptime` ends with; out-of-range fields raise `ValueError`). -/
def validDateTime (dt : DateTime) : Bool :=
  1 ≤ dt.year && dt.year ≤ 9999 && 1 ≤ dt.month && dt.month ≤ 12 &&
  1 ≤ dt.day && dt.day ≤ daysInMonth dt.year dt.month &&
  dt.hour ≤ 23 && dt.minute ≤ 59 && dt.second ≤ 59

/-- Day count of a civil date against a fixed epoch (days-from-civil
algorithm); only differences of values are ever used. Requires `1 ≤ y`,
which `validDateTime` guarantees. -/
def ratadie (y m d : Nat) : Nat :=
  let y2 := if m ≤ 2 then y - 1 else y
  let era := y2 / 400
  let yoe := y2 % 400
  let mp := if 2 < m then m - 3 else m + 9
  let doy := (153 * mp + 2) / 5 + (d - 1)
  let doe := yoe * 365 + yoe / 4 - yoe / 100 + doy
  era * 146097 + doe

/-- Seconds on the naive (timezone-ignoring) timeline, as used after
`published_date.replace(tzinfo=None)`. -/
def naiveSecs (dt : DateTime) : Nat :=
  ratadie dt.year dt.month dt.day * 86400 + dt.hour * 3600 + dt.minute * 60 + dt.second

/-- `dt.replace(tzinfo=None)`. -/
def stripTz (dt : DateTime) : DateTime :=
  { dt with tzOffsetSecs := none }

/-- `(now - published).total_seconds()` for naive datetimes. -/
def elapsedSecs (now pd : DateTime) : Int :=
  (naiveSecs now : Int) - (naiveSecs pd : Int)

/-! ### The six `date_formats` patterns, as directive lists.
A directive consumes input like the regex `_strptime.TimeRE` builds:
names case-insensitively, numbers preferring two digits when the
two-digit value is in the directive's range, `%Y` exactly four digits,
a format-string space one-or-more whitespace, literals
case-insensitively, and the whole input must be consumed. -/

inductive FmtDir where
  | lit (c : Char)
  | ws
  | wkAbbr   -- %a (parsed, ignored)
  | monAbbr  -- %b
  | monFull  -- %B
  | year4    -- %Y
  | monNum   -- %m
  | dayNum   -- %d
  | hourNum  -- %H
  | minNum   -- %M
  | secNum   -- %S
  | tzOff    -- %z
  | tzName   -- %Z (parsed, ignored; accepts UTC/GMT)

def digitVal (c : Char) : Nat := c.toNat - 48

/-- Two digits if their value passes `ok2`, else one digit passing
`ok1` (the ordered-alternation shape of the `TimeRE` numeric patterns). -/
def num2or1 (ok2 ok1 : Nat → Bool) : List Char → Option (Nat × List Char)
  | c1 :: c2 :: rest =>
    if c1.isDigit && c2.isDigit && ok2 (digitVal c1 * 10 + digitVal c2) then
      some (digitVal c1 * 10 + digitVal c2, rest)
    else if c1.isDigit && ok1 (digitVal c1) then some (digitVal c1, c2 :: rest)
    else none
  | [c1] => if c1.isDigit && ok1 (digitVal c1) then some (digitVal c1, []) else none
  | [] => none

/-- Exactly four digits (`%Y`). -/
def num4 : List Char → Option (Nat × List Char)
  | c1 :: c2 :: c3 :: c4 :: rest =>
    if c1.isDigit && c2.isDigit && c3.isDigit && c4.isDigit then
      some (((digitVal c1 * 10 + digitVal c2) * 10 + digitVal c3) * 10 + digitVal c4, rest)
    else none
  | _ => none

/-- Strip a name, case-insensitively. -/
def stripNameCI : List Char → List Char → Option (List Char)
  | [], cs => some cs
  | n :: ns, c :: cs => if c.toLower == n.toLower then stripNameCI ns cs else none
  | _ :: _, [] => none

/-- First name of the list matching a prefix of the input; yields its
1-based index (month number for the month tables). -/
def matchOneOf (names : List String) (cs : List Char) : Option (Nat × List Char) :=
  go names 1 cs
where
  go : List String → Nat → List Char → Option (Nat × List Char)
    | [], _, _ => none
    | n :: ns, i, cs =>
      match stripNameCI n.data cs with
      | some rest => some (i, rest)
      | none => go ns (i + 1) cs

def weekdayAbbrs : List String := ["mon", "tue", "wed", "thu", "fri", "sat", "sun"]

def monthAbbrs : List String :=
  ["jan", "feb", "mar", "apr", "may", "jun", "jul", "aug", "sep", "oct", "nov", "dec"]

def monthFulls : List String :=
  ["january", "february", "march", "april", "may", "june", "july", "august",
   "september", "october", "november", "december"]

def take2digits : List Char → Option (Nat × List Char)
  | c1 :: c2 :: rest =>
    if c1.isDigit && c2.isDigit then some (digitVal c1 * 10 + digitVal c2, rest) else none
  | _ => none

/-- `%z`: `Z` (case-sensitive), or sign and `HH` followed by `MM`,
`MMSS`, `:MM` or `:MM:SS`. (CPython's regex also admits some mixed
colon placements that no feed emits; they are not modeled.) -/
def parseTzOff (cs : List Char) : Option (Int × List Char) :=
  match cs with
  | 'Z' :: rest => some (0, rest)
  | c :: rest =>
    if c == '+' || c == '-' then
      match take2digits rest with
      | none => none
      | some (h, rest2) =>
        let sign : Int := if c == '-' then -1 else 1
        match rest2 with
        | ':' :: rest3 =>
          match take2digits rest3 with
          | none => none
          | some (m, rest4) =>
            match rest4 with
            | ':' :: rest5 =>
              match take2digits rest5 with
              | none => none
              | some (s, rest6) => some (sign * (h * 3600 + m * 60 + s), rest6)
            | _ => some (sign * (h * 3600 + m * 60), rest4)
        | _ =>
          match take2digits rest2 with
          | none => none
          | some (m, rest4) =>
            match take2digits rest4 with
            | some (s, rest6) => some (sign * (h * 3600 + m * 60 + s), rest6)
            | none => some (sign * (h * 3600 + m * 60), rest4)
    else none
  | [] => none

/-- Run a directive list over the input; the whole input must be
consumed (`strptime` raises on unconverted data). -/
def runDirs : List FmtDir → List Char → DateTime → Option DateTime
  | [], [], dt => some dt
  | [], _ :: _, _ => none
  | d :: ds, cs, dt =>
    match d with
    | .lit c =>
      match cs with
      | c2 :: rest => if c2.toLower == c.toLower then runDirs ds rest dt else none
      | [] => none
    | .ws =>
      match cs with
      | c :: rest =>
        if c.isWhitespace then runDirs ds (rest.dropWhile Char.isWhitespace) dt else none
      | [] => none
    | .wkAbbr =>
      match matchOneOf weekdayAbbrs cs with
      | some (_, rest) => runDirs ds rest dt
      | none => none
    | .monAbbr =>
      match matchOneOf monthAbbrs cs with
      | some (m, rest) => runDirs ds rest { dt with month := m }
      | none => none
    | .monFull =>
      match matchOneOf monthFulls cs with
      | some (m, rest) => runDirs ds rest { dt with month := m }
      | none => none
    | .year4 =>
      match num4 cs with
      | some (y, rest) => runDirs ds rest { dt with year := y }
      | none => none
    | .monNum =>
      match num2or1 (fun v => 1 ≤ v && v ≤ 12) (fun v => 1 ≤ v) cs with
      | some (m, rest) => runDirs ds rest { dt with month := m }
      | none => none
    | .dayNum =>
      match num2or1 (fun v => 1 ≤ v && v ≤ 31) (fun v => 1 ≤ v) cs with
      | some (d2, rest) => runDirs ds rest { dt with day := d2 }
      | none => none
    | .hourNum =>
      match num2or1 (fun v => v ≤ 23) (fun _ => true) cs with
      | some (h, rest) => runDirs ds rest { dt with hour := h }
      | none => none
    | .minNum =>
      match num2or1 (fun v => v ≤ 59) (fun _ => true) cs with
      | some (m, rest) => runDirs ds rest { dt with minute := m }
      | none => none
    | .secNum =>
      match num2or1 (fun v => v ≤ 61) (fun _ => true) cs with
      | some (s, rest) => runDirs ds rest { dt with second := s }
      | none => none
    | .tzOff =>
      match parseTzOff cs with
      | some (off, rest) => runDirs ds rest { dt with tzOffsetSecs := some off }
      | none => none
    | .tzName =>
      match matchOneOf ["utc", "gmt"] cs with
      | some (_, rest) => runDirs ds rest dt
      | none => none

/-- `datetime.strptime(s, fmt)` as an optional value: directive run,
then the constructor's range checks. -/
def strptime (dirs : List FmtDir) (s : String) : Option DateTime :=
  match runDirs dirs s.data strptimeDefault with
  | some dt => if validDateTime dt then some dt else none
  | none => none

/-- `'%a, %d %b %Y %H:%M:%S %z'` -/
def fmtRfc822Off : List FmtDir :=
  [.wkAbbr, .lit ',', .ws, .dayNum, .ws, .monAbbr, .ws, .year4, .ws,
   .hourNum, .lit ':', .minNum, .lit ':', .secNum, .ws, .tzOff]

/-- `'%a, %d %b %Y %H:%M:%S %Z'` -/
def fmtRfc822Name : List FmtDir :=
  [.wkAbbr, .lit ',', .ws, .dayNum, .ws, .monAbbr, .ws, .year4, .ws,
   .hourNum, .lit ':', .minNum, .lit ':', .secNum, .ws, .tzName]

/-- `'%Y-%m-%dT%H:%M:%S%z'` -/
def fmtIsoOff : List FmtDir :=
  [.year4, .lit '-', .monNum, .lit '-', .dayNum, .lit 'T',
   .hourNum, .lit ':', .minNum, .lit ':', .secNum, .tzOff]

/-- `'%Y-%m-%d %H:%M:%S'` -/
def fmtIsoSpace : List FmtDir :=
  [.year4, .lit '-', .monNum, .lit '-', .dayNum, .ws,
   .hourNum, .lit ':', .minNum, .lit ':', .secNum]

/-- `'%d %b %Y'` -/
def fmtDayMonYear : List FmtDir :=
  [.dayNum, .ws, .monAbbr, .ws, .year4]

/-- `'%B %d, %Y'` -/
def fmtMonthDayYear : List FmtDir :=
  [.monFull, .ws, .dayNum, .lit ',', .ws, .year4]

/-- The `date_formats` list of `is_fresh_article`, in order. -/
def date_formats : List (List FmtDir) :=
  [fmtRfc822Off, fmtRfc822Name, fmtIsoOff, fmtIsoSpace, fmtDayMonYear, fmtMonthDayYear]

/-- The format-trying loop of `is_fresh_article`: first format that
parses wins; `none` when all fail. -/
def parse_datestr (s : String) : Option DateTime :=
  date_formats.findSome? (fun fmt => strptime fmt s)

/-- `self.max_age_hours`. -/
def max_age_hours : Nat := 24

/-- `IndiaNewsDigest.is_fresh_article`, with `datetime.now()` passed
explicitly. Unparseable dates are assumed recent (`return True`);
otherwise the age on the naive timeline (timezone info stripped without
adjustment) is compared against the 24-hour threshold. The code places
no lower bound on the age: a future-dated article also passes. -/
def is_fresh_article (published_date_str : String) (now : DateTime) : Bool :=
  match parse_datestr published_date_str with
  | none => true
  | some pd => decide (elapsedSecs now (stripTz pd) ≤ (max_age_hours : Int) * 3600)

end NewsDigest

namespace NewsDigest

/-! ## MD5 (`hashlib.md5(content.encode()).hexdigest()`), implemented
over UTF-8 byte lists with `Nat` words reduced modulo `2 ^ 32`. -/

/-- UTF-8 encoding of one character (`str.encode()`). -/
def utf8Bytes (c : Char) : List Nat :=
  let n := c.toNat
  if n < 128 then [n]
  else if n < 2048 then [192 ||| (n >>> 6), 128 ||| (n &&& 63)]
  else if n < 65536 then
    [224 ||| (n >>> 12), 128 ||| ((n >>> 6) &&& 63), 128 ||| (n &&& 63)]
  else
    [240 ||| (n >>> 18), 128 ||| ((n >>> 12) &&& 63),
     128 ||| ((n >>> 6) &&& 63), 128 ||| (n &&& 63)]

/-- UTF-8 bytes of a string. -/
def strBytes (s : String) : List Nat :=
  s.data.foldr (fun c acc => utf8Bytes c ++ acc) []

def mask32 (x : Nat) : Nat := x % 4294967296

def not32 (x : Nat) : Nat := x ^^^ 4294967295

def rotl32 (x s : Nat) : Nat := mask32 ((x <<< s) ||| (x >>> (32 - s)))

/-- The 64 MD5 round constants `K[i] = floor(abs(sin(i + 1)) * 2^32)`. -/
def md5K : List Nat :=
  [3614090360, 3905402710, 606105819, 3250441966, 4118548399, 1200080426,
   2821735955, 4249261313, 1770035416, 2336552879, 4294925233, 2304563134,
   1804603682, 4254626195, 2792965006, 1236535329, 4129170786, 3225465664,
   643717713, 3921069994, 3593408605, 38016083, 3634488961, 3889429448,
   568446438, 3275163606, 4107603335, 1163531501, 2850285829, 4243563512,
   1735328473, 2368359562, 4294588738, 2272392833, 1839030562, 4259657740,
   2763975236, 1272893353, 4139469664, 3200236656, 681279174, 3936430074,
   3572445317, 76029189, 3654602809, 3873151461, 530742520, 3299628645,
   4096336452, 1126891415, 2878612391, 4237533241, 1700485571, 2399980690,
   4293915773, 2240044497, 1873313359, 4264355552, 2734768916, 1309151649,
   4149444226, 3174756917, 718787259, 3951481745]

/-- Per-round left-rotation amounts. -/
def md5S : List Nat :=
  [7, 12, 17, 22, 7, 12, 17, 22, 7, 12, 17, 22, 7, 12, 17, 22,
   5, 9, 14, 20, 5, 9, 14, 20, 5, 9, 14, 20, 5, 9, 14, 20,
   4, 11, 16, 23, 4, 11, 16, 23, 4, 11, 16, 23, 4, 11, 16, 23,
   6, 10, 15, 21, 6, 10, 15, 21, 6, 10, 15, 21, 6, 10, 15, 21]

structure MD5State where
  a : Nat
  b : Nat
  c : Nat
  d : Nat
deriving Repr, DecidableEq

def md5Init : MD5State :=
  { a := 1732584193, b := 4023233417, c := 2562383102, d := 271733878 }

def md5F (i b c d : Nat) : Nat :=
  if i < 16 then (b &&& c) ||| (not32 b &&& d)
  else if i < 32 then (d &&& b) ||| (not32 d &&& c)
  else if i < 48 then b ^^^ c ^^^ d
  else c ^^^ (b ||| not32 d)

def md5G (i : Nat) : Nat :=
  if i < 16 then i
  else if i < 32 then (5 * i + 1) % 16
  else if i < 48 then (3 * i + 5) % 16
  else (7 * i) % 16

def md5Step (M : List Nat) (st : MD5State) (i : Nat) : MD5State :=
  let f := mask32 (md5F i st.b st.c st.d + st.a + md5K.getD i 0 + M.getD (md5G i) 0)
  { a := st.d, d := st.c, c := st.b, b := mask32 (st.b + rotl32 f (md5S.getD i 0)) }

/-- Little-endian 32-bit words of a 64-byte block. -/
def toWords : List Nat → List Nat
  | b0 :: b1 :: b2 :: b3 :: rest =>
    (b0 + 256 * (b1 + 256 * (b2 + 256 * b3))) :: toWords rest
  | _ => []

def md5Block (st : MD5State) (block : List Nat) : MD5State :=
  let M := toWords block
  let r := (List.range 64).foldl (md5Step M) st
  { a := mask32 (st.a + r.a), b := mask32 (st.b + r.b),
    c := mask32 (st.c + r.c), d := mask32 (st.d + r.d) }

/-- `n` as 8 little-endian bytes. -/
def le8 (n : Nat) : List Nat :=
  (List.range 8).map (fun i => n / 256 ^ i % 256)

/-- MD5 padding: `0x80`, zeros to 56 mod 64, 64-bit LE bit length. -/
def md5Pad (msg : List Nat) : List Nat :=
  let len := msg.length
  let z := (119 - len % 64) % 64
  msg ++ [128] ++ List.replicate z 0 ++ le8 (len * 8)

/-- 64-byte blocks of a list, with explicit structural fuel (one unit
per block; the byte count is always enough fuel). -/
def chunksGo : Nat → List Nat → List (List Nat)
  | 0, _ => []
  | _, [] => []
  | fuel + 1, c :: t => (c :: t.take 63) :: chunksGo fuel (t.drop 63)

def chunks64 (l : List Nat) : List (List Nat) :=
  chunksGo l.length l

def md5Bytes (msg : List Nat) : MD5State :=
  (chunks64 (md5Pad msg)).foldl md5Block md5Init

def hexDigit (n : Nat) : Char :=
  if n < 10 then Char.ofNat (48 + n) else Char.ofNat (87 + n)

def byteHex (b : Nat) : List Char :=
  [hexDigit (b / 16 % 16), hexDigit (b % 16)]

/-- Lowercase hex of a 32-bit word, least significant byte first. -/
def wordLEHex (w : Nat) : List Char :=
  byteHex (w % 256) ++ byteHex (w / 256 % 256) ++
  byteHex (w / 65536 % 256) ++ byteHex (w / 16777216 % 256)

/-- `hashlib.md5(s.encode()).hexdigest()`. -/
def md5hex (s : String) : String :=
  let st := md5Bytes (strBytes s)
  ⟨wordLEHex st.a ++ wordLEHex st.b ++ wordLEHex st.c ++ wordLEHex st.d⟩

/-! ## Fingerprints (`generate_article_hash`). -/

/-- The `article_data` dict built in `fetch_all_news` before hashing. -/
structure ArticleData where
  title : String
  link : String
  summary : String
deriving Repr, DecidableEq

/-- `IndiaNewsDigest.generate_article_hash`: MD5 hex digest of
`f"{article['title']}_{article['link'][:100]}"`. -/
def generate_article_hash (article : ArticleData) : String :=
  md5hex (article.title ++ "_" ++ article.link.take 100)

end NewsDigest

namespace NewsDigest

/-! ## Feed entries and the per-run pipeline state of `fetch_all_news`.
The feed collaborator is abstracted as input data: each registered
source carries either the entry list its feed produced or an error
(a fetch/parse exception). `self.seen_articles` is the second state
component, initialised from `load_cache`; `datetime.now()` is `now`. -/

/-- A feed entry (`entry.get` treats missing fields as defaults). -/
structure Entry where
  title : String
  link : String
  published : Option String
  updated : Option String
  summary : Option String
  description : Option String
deriving Repr, DecidableEq

/-- An article dict as built in `fetch_all_news`. -/
structure Article where
  source : String
  title : String
  link : String
  published : String
  summary : String
  upsc_score : Nat
  upsc_subjects : List String
  hash : String
  is_govt_source : Bool
deriving Repr, DecidableEq

/-- `entry.get('published', entry.get('updated', 'Recent'))`. -/
def entryPublished (entry : Entry) : String :=
  entry.published.getD (entry.updated.getD "Recent")

/-- The `article_data` dict: title truncated to 200, full link, summary
defaulted and truncated to 300. -/
def entryArticleData (entry : Entry) : ArticleData :=
  { title := entry.title.take 200,
    link := entry.link,
    summary := (entry.summary.getD (entry.description.getD "No summary")).take 300 }

/-- The source-name markers of the `is_govt_source` flag. -/
def govt_source_names : List String :=
  ["pib", "dd", "air", "mea", "isro", "csir"]

/-- The article dict built for one surviving entry: truncated fields,
score and subjects over `f"{entry.title} {entry.get('summary', '')}"`,
the fingerprint, and the source-name government flag. -/
def mkArticle (source_name : String) (entry : Entry) : Article :=
  let content := entry.title ++ " " ++ entry.summary.getD ""
  { source := source_name,
    title := entry.title.take 150,
    link := entry.link,
    published := (entryPublished entry).take 50,
    summary := (entryArticleData entry).summary,
    upsc_score := calculate_upsc_score content,
    upsc_subjects := categorize_upsc_subject content,
    hash := generate_article_hash (entryArticleData entry),
    is_govt_source :=
      govt_source_names.any (fun g => containsSub (lowerStr source_name) g) }

/-- One iteration of the per-entry loop body of `fetch_all_news`:
skip if stale, skip if the fingerprint was already seen, otherwise
record the fingerprint and append the scored article. -/
def processEntry (source_name : String) (now : DateTime)
    (st : List Article × List String) (entry : Entry) :
    List Article × List String :=
  let published := entryPublished entry
  if ¬ is_fresh_article published now then st
  else
    let article_hash := generate_article_hash (entryArticleData entry)
    if st.2.contains article_hash then st
    else (st.1 ++ [mkArticle source_name entry], st.2 ++ [article_hash])

/-- What fetching one source produced: a list of entries, or the
exception a failing fetch/parse raised. -/
abbrev FetchResult : Type := Except String (List Entry)

/-- Whether a source's fetch succeeded. -/
def fetchSucceeded (src : String × FetchResult) : Bool :=
  match src.2 with
  | .ok _ => true
  | .error _ => false

/-- The per-source loop body: a failed fetch is caught and logged and
the run continues; a successful fetch feeds (at most 8) entries through
`processEntry`. -/
def processSource (now : DateTime) (st : List Article × List String)
    (src : String × FetchResult) : List Article × List String :=
  match src.2 with
  | .error _ => st
  | .ok entries => (entries.take 8).foldl (processEntry src.1 now) st

/-- The accumulation phase of `fetch_all_news` over all sources,
starting from no articles and the seen-set loaded from the cache. -/
def collect (sources : List (String × FetchResult)) (seen0 : List String)
    (now : DateTime) : List Article × List String :=
  sources.foldl (processSource now) ([], seen0)

/-- The Python sort key `(x['upsc_score'], x['is_govt_source'])`. -/
def articleKey (a : Article) : Nat × Bool := (a.upsc_score, a.is_govt_source)

def boolNat : Bool → Nat
  | false => 0
  | true => 1

/-- Python tuple order on `(score, is_govt)` (False < True). -/
def keyLE (p q : Nat × Bool) : Prop :=
  p.1 < q.1 ∨ (p.1 = q.1 ∧ boolNat p.2 ≤ boolNat q.2)

instance (p q : Nat × Bool) : Decidable (keyLE p q) := by
  unfold keyLE; infer_instance

/-- `a` may stably precede `b` in the descending sort. -/
def priorityGE (a b : Article) : Prop := keyLE (articleKey b) (articleKey a)

instance : DecidableRel priorityGE := fun a b => by
  unfold priorityGE; infer_instance

instance : IsTotal Article priorityGE where
  total a b := by
    unfold priorityGE keyLE
    rcases Nat.lt_trichotomy (articleKey b).1 (articleKey a).1 with h | h | h
    · exact Or.inl (Or.inl h)
    · rcases Nat.le_total (boolNat (articleKey b).2) (boolNat (articleKey a).2) with h2 | h2
      · exact Or.inl (Or.inr ⟨h, h2⟩)
      · exact Or.inr (Or.inr ⟨h.symm, h2⟩)
    · exact Or.inr (Or.inl h)

instance : IsTrans Article priorityGE where
  trans a b c hab hbc := by
    unfold priorityGE keyLE at *
    rcases hbc with h1 | ⟨e1, b1⟩
    · rcases hab with h2 | ⟨e2, _⟩
      · exact Or.inl (Nat.lt_trans h1 h2)
      · exact Or.inl (e2 ▸ h1)
    · rcases hab with h2 | ⟨e2, b2⟩
      · exact Or.inl (e1 ▸ h2)
      · exact Or.inr ⟨e1.trans e2, Nat.le_trans b1 b2⟩

/-- `IndiaNewsDigest.fetch_all_news` (the cache save is modeled
separately by `save_cache`): accumulate over sources, then a stable
descending sort on `(upsc_score, is_govt_source)`, then the top 25.
Returns the ranked articles and the final seen-set. -/
def fetch_all_news (sources : List (String × FetchResult))
    (seen0 : List String) (now : DateTime) : List Article × List String :=
  let st := collect sources seen0 now
  ((List.insertionSort priorityGE st.1).take 25, st.2)

/-! ## The persisted seen-articles cache (`load_cache` / `save_cache`).
The JSON file is a mapping fingerprint → ISO timestamp; it is modeled
as `Option` (present?) of a key-unique pair list, with timestamps as
naive seconds (ISO serialization is invertible plumbing). -/

/-- `datetime.now() - timedelta(days=2)`, in seconds. -/
def retentionCutoff (now : Int) : Int := now - 2 * 86400

/-- `IndiaNewsDigest.load_cache`: no file (or a read failure) leaves
the seen-set empty; otherwise exactly the fingerprints whose stored
timestamp is newer than the 2-day cutoff are loaded. -/
def load_cache (file : Option (List (String × Int))) (now : Int) :
    List String :=
  match file with
  | none => []
  | some data =>
    (data.filter (fun p => retentionCutoff now < p.2)).map (·.1)

/-- Python dict assignment `cache_data[k] = v` on a key-unique pair
list. -/
def dictInsert (m : List (String × Int)) (k : String) (v : Int) :
    List (String × Int) :=
  if m.any (fun p => p.1 == k) then
    m.map (fun p => if p.1 == k then (k, v) else p)
  else m ++ [(k, v)]

/-- `IndiaNewsDigest.save_cache`: the body first OPENS THE CACHE FILE
FOR READING; when the file does not exist that raises
`FileNotFoundError`, the bare `except: pass` swallows it, and nothing
is written (result `none` = file unchanged/absent). With a readable
file, entries within the retention window are kept and every seen
fingerprint is written with the current timestamp. -/
def save_cache (file : Option (List (String × Int)))
    (seen_articles : List String) (now : Int) :
    Option (List (String × Int)) :=
  match file with
  | none => none
  | some old_data =>
    let cache_data := old_data.filter (fun p => retentionCutoff now < p.2)
    some (seen_articles.foldl (fun m h => dictInsert m h now) cache_data)

end NewsDigest

namespace NewsDigest

/-- The deduplication invariant of the per-run state, relative to the
seen-set `seen0` loaded from the cache: accumulated articles have
pairwise-distinct fingerprints, their fingerprints are all recorded in
the seen-set, `seen0` stays in the seen-set, and no accumulated article
has a fingerprint from `seen0`. -/
def DedupInv (seen0 : List String) (st : List Article × List String) : Prop :=
  st.1.Pairwise (fun a b => a.hash ≠ b.hash) ∧
  (∀ a ∈ st.1, a.hash ∈ st.2) ∧
  (∀ h ∈ seen0, h ∈ st.2) ∧
  (∀ a ∈ st.1, a.hash ∉ seen0)

/-! ## General lemmas: score accumulation, stable-sort bookkeeping, and
the deduplication invariant of the per-run state. -/

theorem foldl_if_add (w : Nat) (p : String → Bool) (l : List String) :
    ∀ init : Nat,
      l.foldl (fun score k => if p k then score + w else score) init
        = init + w * l.countP p := by
  induction l with
  | nil => intro init; simp
  | cons k t ih =>
    intro init
    by_cases h : p k
    · simp [List.foldl_cons, h, ih, List.countP_cons_of_pos _ _ h]
      ring
    · simp [List.foldl_cons, h, ih, List.countP_cons_of_neg _ _ h]

/-- The code's score agrees with the spec's per-tier weighted sum plus
government bonus. -/
theorem calculate_upsc_score_eq_spec (text : String) :
    calculate_upsc_score text = upsc_score_spec text := by
  unfold calculate_upsc_score upsc_score_spec kwMatch
  simp only [foldl_if_add]
  by_cases h : govt_sources.any (fun source => containsSub (lowerStr text) source)
  · simp [h]
  · simp [h]

end NewsDigest

namespace NewsDigest

/-- Inserting an article into an already-sorted list moves it past
exactly the strictly-higher-priority elements, so the sublist of any
fixed key is preserved (stability, one insertion). -/
theorem orderedInsert_filter_key (k : Nat × Bool) (a : Article) (l : List Article) :
    (List.orderedInsert priorityGE a l).filter (fun x => articleKey x == k)
      = if articleKey a == k
        then a :: l.filter (fun x => articleKey x == k)
        else l.filter (fun x => articleKey x == k) := by
  rw [List.orderedInsert_eq_take_drop, List.filter_append]
  have hsplit := congrArg (List.filter (fun x => articleKey x == k))
    (List.takeWhile_append_dropWhile (p := fun b => decide ¬priorityGE a b) (l := l))
  rw [List.filter_append] at hsplit
  by_cases ha : articleKey a == k
  · have htw : (l.takeWhile (fun b => decide ¬priorityGE a b)).filter
        (fun x => articleKey x == k) = [] := by
      rw [List.filter_eq_nil_iff]
      intro b hb hbk
      have hpb := List.mem_takeWhile_imp hb
      rw [decide_eq_true_iff] at hpb
      rw [beq_iff_eq] at ha hbk
      exact hpb (Or.inr ⟨by rw [ha, hbk], by rw [ha, hbk]⟩)
    rw [htw, List.nil_append] at hsplit
    simp only [decide_not] at htw hsplit
    simp [List.filter_cons, ha, htw, hsplit]
  · simp only [List.filter_cons, ha] at hsplit ⊢
    simpa [ha] using hsplit

/-- Stability of the descending insertion sort: for every key value,
the sorted list restricted to that key equals the input restricted to
that key (original encounter order). -/
theorem insertionSort_filter_key (k : Nat × Bool) (l : List Article) :
    (List.insertionSort priorityGE l).filter (fun x => articleKey x == k)
      = l.filter (fun x => articleKey x == k) := by
  induction l with
  | nil => rfl
  | cons a t ih =>
    simp only [List.insertionSort, orderedInsert_filter_key, List.filter_cons]
    by_cases ha : articleKey a == k
    · simp only [ha, if_true, ih]
    · simp only [ha, if_false, ih]

end NewsDigest

namespace NewsDigest

theorem processEntry_def (sn : String) (now : DateTime)
    (st : List Article × List String) (e : Entry) :
    processEntry sn now st e =
      if ¬ is_fresh_article (entryPublished e) now then st
      else if st.2.contains (generate_article_hash (entryArticleData e)) then st
      else (st.1 ++ [mkArticle sn e],
            st.2 ++ [generate_article_hash (entryArticleData e)]) := rfl

theorem mkArticle_hash (sn : String) (e : Entry) :
    (mkArticle sn e).hash = generate_article_hash (entryArticleData e) := rfl

theorem processEntry_dedupInv {seen0 : List String} (sn : String)
    (now : DateTime) (st : List Article × List String) (e : Entry)
    (h : DedupInv seen0 st) : DedupInv seen0 (processEntry sn now st e) := by
  rw [processEntry_def]
  split
  · exact h
  split
  · exact h
  next hcont =>
    obtain ⟨hpw, hsub, hseen, hnot⟩ := h
    have hnotmem : generate_article_hash (entryArticleData e) ∉ st.2 := by
      simpa using hcont
    refine ⟨?_, ?_, ?_, ?_⟩
    · rw [List.pairwise_append]
      refine ⟨hpw, List.pairwise_singleton _ _, ?_⟩
      intro a ha b hb
      rw [List.mem_singleton] at hb
      subst hb
      rw [mkArticle_hash]
      intro heq
      exact hnotmem (heq ▸ hsub a ha)
    · intro a ha
      rcases List.mem_append.mp ha with ha | ha
      · exact List.mem_append.mpr (Or.inl (hsub a ha))
      · rw [List.mem_singleton] at ha
        subst ha
        rw [mkArticle_hash]
        exact List.mem_append.mpr (Or.inr (List.mem_singleton.mpr rfl))
    · intro h2 hh
      exact List.mem_append.mpr (Or.inl (hseen h2 hh))
    · intro a ha
      rcases List.mem_append.mp ha with ha | ha
      · exact hnot a ha
      · rw [List.mem_singleton] at ha
        subst ha
        rw [mkArticle_hash]
        intro hmem
        exact hnotmem (hseen _ hmem)

theorem foldl_processEntry_dedupInv {seen0 : List String} (sn : String)
    (now : DateTime) (es : List Entry) :
    ∀ st : List Article × List String, DedupInv seen0 st →
      DedupInv seen0 (es.foldl (processEntry sn now) st) := by
  induction es with
  | nil => intro st h; exact h
  | cons e t ih =>
    intro st h
    exact ih _ (processEntry_dedupInv sn now st e h)

theorem processSource_dedupInv {seen0 : List String} (now : DateTime)
    (st : List Article × List String) (src : String × FetchResult)
    (h : DedupInv seen0 st) : DedupInv seen0 (processSource now st src) := by
  unfold processSource
  match src.2 with
  | .error _ => exact h
  | .ok entries => exact foldl_processEntry_dedupInv _ now _ st h

theorem collect_dedupInv (sources : List (String × FetchResult))
    (seen0 : List String) (now : DateTime) :
    DedupInv seen0 (collect sources seen0 now) := by
  unfold collect
  have hinit : DedupInv seen0 (([] : List Article), seen0) :=
    ⟨List.Pairwise.nil, fun a ha => absurd ha (List.not_mem_nil a),
     fun _ hh => hh, fun a ha => absurd ha (List.not_mem_nil a)⟩
  generalize hst : (([] : List Article), seen0) = st at hinit
  clear hst
  induction sources generalizing st with
  | nil => exact hinit
  | cons src rest ih =>
    exact ih _ (processSource_dedupInv now st src hinit)

end NewsDigest

namespace NewsDigest

/-- Folding the per-source step over all sources equals folding it
over the successfully-fetched sources only: a failed source leaves the
state untouched. -/
theorem foldl_processSource_filter (now : DateTime)
    (sources : List (String × FetchResult)) :
    ∀ st : List Article × List String,
      sources.foldl (processSource now) st
        = (sources.filter fetchSucceeded).foldl (processSource now) st := by
  induction sources with
  | nil => intro st; rfl
  | cons src rest ih =>
    intro st
    match hsrc : src.2 with
    | .ok entries =>
      have h1 : fetchSucceeded src = true := by unfold fetchSucceeded; rw [hsrc]
      simp only [List.foldl_cons, List.filter_cons, h1, if_true]
      exact ih _
    | .error msg =>
      have h1 : fetchSucceeded src = false := by unfold fetchSucceeded; rw [hsrc]
      have h2 : processSource now st src = st := by unfold processSource; rw [hsrc]
      simp only [List.foldl_cons, List.filter_cons, h1, h2]
      simpa using ih st

end NewsDigest

namespace NewsDigest

/-- C1: for every text, `calculate_upsc_score` equals the sum over all
tiers (high=5, medium=3, low=1) of the tier weight for each phrase of
the tier occurring case-insensitively as a substring — each phrase
counted at most once however often it occurs — plus a flat bonus of 2
when a government source name occurs; in particular a text matching no
taxonomy keyword and no bonus phrase scores 0, and a text matching
exactly one high-tier and one medium-tier phrase and nothing else
scores 5 + 3 = 8 even when a phrase is repeated. -/
theorem C1_score_is_weighted_keyword_sum :
    (∀ text, calculate_upsc_score text = upsc_score_spec text) ∧
    (∀ text, upsc_keywords_high.countP (fun k => kwMatch text k) = 0 →
      upsc_keywords_medium.countP (fun k => kwMatch text k) = 0 →
      upsc_keywords_low.countP (fun k => kwMatch text k) = 0 →
      govt_sources.any (fun source => containsSub (lowerStr text) source) = false →
      calculate_upsc_score text = 0) ∧
    (∀ text, upsc_keywords_high.countP (fun k => kwMatch text k) = 1 →
      upsc_keywords_medium.countP (fun k => kwMatch text k) = 1 →
      upsc_keywords_low.countP (fun k => kwMatch text k) = 0 →
      govt_sources.any (fun source => containsSub (lowerStr text) source) = false →
      calculate_upsc_score text = 5 + 3) := by
  refine ⟨calculate_upsc_score_eq_spec, ?_, ?_⟩
  · intro text h1 h2 h3 h4
    rw [calculate_upsc_score_eq_spec]
    unfold upsc_score_spec
    rw [h1, h2, h3, h4]
    simp
  · intro text h1 h2 h3 h4
    rw [calculate_upsc_score_eq_spec]
    unfold upsc_score_spec
    rw [h1, h2, h3, h4]
    simp

/-- C1 witness: "hello world" matches nothing and scores 0;
"parliament parliament economy" matches the high-tier phrase
Parliament (twice) and the medium-tier phrase Economy and scores 8. -/
theorem C1_witness :
    calculate_upsc_score "hello world" = 0 ∧
    calculate_upsc_score "parliament parliament economy" = 5 + 3 :=
  ⟨C1_score_is_weighted_keyword_sum.2.1 "hello world"
      (by decide) (by decide) (by decide) (by decide),
   C1_score_is_weighted_keyword_sum.2.2 "parliament parliament economy"
      (by decide) (by decide) (by decide) (by decide)⟩

/-- C2 counterexample: the claim's "non-negative" lower bound is not in
the code. "2025-01-02 00:00:00" parses; at `now` = 2025-01-01T00:00:00
the elapsed time is negative (future-dated article), yet
`is_fresh_article` returns true, where the claim requires false. -/
theorem C2_counterexample_future_dated_is_fresh :
    parse_datestr "2025-01-02 00:00:00" = some ⟨2025, 1, 2, 0, 0, 0, none⟩ ∧
    elapsedSecs ⟨2025, 1, 1, 0, 0, 0, none⟩
        (stripTz ⟨2025, 1, 2, 0, 0, 0, none⟩) < 0 ∧
    is_fresh_article "2025-01-02 00:00:00" ⟨2025, 1, 1, 0, 0, 0, none⟩ = true :=
  ⟨by decide, by decide, by decide⟩

/-- C2 (amended): for every published-date string parsing against one
of the known formats, `is_fresh_article` returns true iff the elapsed
time (after stripping timezone info) is at most 24 hours — with no
lower bound, so a future-dated article is also classified fresh; the
claim's examples hold: fresh at 2025-01-01T12:00:00 and not fresh at
2025-01-03T00:00:00 for an article published 2025-01-01T00:00:00+0000. -/
theorem C2_fresh_iff_elapsed_at_most_window :
    (∀ (s : String) (now dt : DateTime), parse_datestr s = some dt →
      (is_fresh_article s now = true ↔
        elapsedSecs now (stripTz dt) ≤ (max_age_hours : Int) * 3600)) ∧
    is_fresh_article "Wed, 01 Jan 2025 00:00:00 +0000"
        ⟨2025, 1, 1, 12, 0, 0, none⟩ = true ∧
    is_fresh_article "Wed, 01 Jan 2025 00:00:00 +0000"
        ⟨2025, 1, 3, 0, 0, 0, none⟩ = false := by
  refine ⟨?_, by decide, by decide⟩
  intro s now dt h
  unfold is_fresh_article
  rw [h]
  exact decide_eq_true_iff

/-- C2 witness: the amended iff applied to the RFC-822 example at noon
of the publication day. -/
theorem C2_witness :
    is_fresh_article "Wed, 01 Jan 2025 00:00:00 +0000"
        ⟨2025, 1, 1, 12, 0, 0, none⟩ = true :=
  (C2_fresh_iff_elapsed_at_most_window.1 _ _ ⟨2025, 1, 1, 0, 0, 0, some 0⟩
      (by decide)).mpr (by decide)

/-- C9: `is_fresh_article` is a total boolean function of its input
(the embedding of "terminates normally and never raises"), and every
input on which all date formats fail to parse is routed to the
fallback, which returns true. -/
theorem C9_is_fresh_article_total_with_fallback :
    (∀ (s : String) (now : DateTime),
      is_fresh_article s now = true ∨ is_fresh_article s now = false) ∧
    (∀ (s : String) (now : DateTime), parse_datestr s = none →
      is_fresh_article s now = true) := by
  constructor
  · intro s now
    exact Bool.eq_false_or_eq_true (is_fresh_article s now)
  · intro s now h
    unfold is_fresh_article
    rw [h]

/-- C9 witness: a malformed date string hits the fallback. -/
theorem C9_witness :
    is_fresh_article "not a date" ⟨2025, 1, 1, 0, 0, 0, none⟩ = true :=
  C9_is_fresh_article_total_with_fallback.2 "not a date" _ (by decide)

/-- C10: an entry with neither a published nor an updated field gets
the literal "Recent" as its published date; "Recent" matches none of
the known date formats, so such an entry always passes the freshness
check. -/
theorem C10_undated_entries_always_fresh :
    (∀ e : Entry, e.published = none → e.updated = none →
      entryPublished e = "Recent") ∧
    parse_datestr "Recent" = none ∧
    (∀ (e : Entry) (now : DateTime), e.published = none → e.updated = none →
      is_fresh_article (entryPublished e) now = true) := by
  have hrec : parse_datestr "Recent" = none := by decide
  refine ⟨?_, hrec, ?_⟩
  · intro e h1 h2
    unfold entryPublished
    rw [h1, h2]
    rfl
  · intro e now h1 h2
    have he : entryPublished e = "Recent" := by
      unfold entryPublished
      rw [h1, h2]
      rfl
    rw [he]
    unfold is_fresh_article
    rw [hrec]

/-- C10 witness: a concrete entry without dates. -/
theorem C10_witness :
    entryPublished ⟨"T", "L", none, none, none, none⟩ = "Recent" ∧
    is_fresh_article (entryPublished ⟨"T", "L", none, none, none, none⟩)
        ⟨2025, 1, 1, 0, 0, 0, none⟩ = true :=
  ⟨C10_undated_entries_always_fresh.1 _ rfl rfl,
   C10_undated_entries_always_fresh.2.2 _ _ rfl rfl⟩

/-- C4: `generate_article_hash` yields equal fingerprints whenever the
titles agree and the first 100 characters of the links agree, however
the links continue; composed with the pipeline's 200-character title
truncation, the fingerprint is a deterministic function of the
truncated title and the 100-character link head. -/
theorem C4_hash_of_title_and_link_head :
    (∀ a b : ArticleData, a.title = b.title →
      a.link.take 100 = b.link.take 100 →
      generate_article_hash a = generate_article_hash b) ∧
    (∀ e1 e2 : Entry, e1.title.take 200 = e2.title.take 200 →
      e1.link.take 100 = e2.link.take 100 →
      generate_article_hash (entryArticleData e1)
        = generate_article_hash (entryArticleData e2)) := by
  constructor
  · intro a b ht hl
    unfold generate_article_hash
    rw [ht, hl]
  · intro e1 e2 ht hl
    unfold generate_article_hash entryArticleData
    simp only
    rw [ht, hl]

/-- C4 witness: two links agreeing on their first 100 characters but
differing beyond them give the same fingerprint. -/
theorem C4_witness :
    generate_article_hash ⟨"Same headline",
      "https://example.org/aaaaaaaaaaaaaaaaaaaaaaaaaaaaaaaaaaaaaaaaaaaaaaaaaaaaaaaaaaaaaaaaaaaaaaaaaaaaaaaaaaaaa?session=1", "s"⟩
      = generate_article_hash ⟨"Same headline",
      "https://example.org/aaaaaaaaaaaaaaaaaaaaaaaaaaaaaaaaaaaaaaaaaaaaaaaaaaaaaaaaaaaaaaaaaaaaaaaaaaaaaaaaaaaaa?session=2", "s"⟩ :=
  C4_hash_of_title_and_link_head.1 _ _ rfl (by decide)

end NewsDigest

namespace NewsDigest

theorem fetch_all_news_def (sources : List (String × FetchResult))
    (seen0 : List String) (now : DateTime) :
    fetch_all_news sources seen0 now
      = ((List.insertionSort priorityGE (collect sources seen0 now).1).take 25,
         (collect sources seen0 now).2) := rfl

/-- C7: after a cache load, the seen-set holds exactly the fingerprints
whose stored timestamp lies inside the 2-day retention window; an entry
stored 3 days ago (timestamp 40800 at now = 300000) is purged, and a
missing file leaves the set empty. -/
theorem C7_load_cache_drops_expired :
    (∀ (data : List (String × Int)) (now : Int) (h : String),
      h ∈ load_cache (some data) now ↔
        ∃ t : Int, (h, t) ∈ data ∧ retentionCutoff now < t) ∧
    load_cache (some [("F", 40800)]) 300000 = [] ∧
    load_cache none 300000 = [] := by
  refine ⟨?_, by decide, rfl⟩
  intro data now h
  unfold load_cache
  simp only [List.mem_map, List.mem_filter]
  constructor
  · rintro ⟨⟨k, t⟩, ⟨hmem, hp⟩, hk⟩
    simp only at hk
    subst hk
    simp only [decide_eq_true_iff] at hp
    exact ⟨t, hmem, hp⟩
  · rintro ⟨t, hmem, hlt⟩
    exact ⟨(h, t), ⟨hmem, by simpa using hlt⟩, rfl⟩

/-- C6 (code bug): `save_cache` first opens `seen_articles.json` for
reading; when no cache file exists that raises `FileNotFoundError` and
the bare `except: pass` abandons the save, so a run's fingerprints are
NOT persisted — and since `save_cache` is the only writer, the file is
never created at all. The claimed merge does happen whenever a readable
file is present (two concrete good paths shown). -/
theorem C6_save_cache_skips_write_without_prior_file :
    (∀ (seen : List String) (now : Int), save_cache none seen now = none) ∧
    save_cache (some []) ["90d03d989c88574d8b5063e855cbf8b7"] 300000
      = some [("90d03d989c88574d8b5063e855cbf8b7", 300000)] ∧
    save_cache (some [("OLD", 40800), ("KEEP", 200000)]) ["NEW"] 300000
      = some [("KEEP", 200000), ("NEW", 300000)] :=
  ⟨fun _ _ => rfl, by decide, by decide⟩

/-- C3: the ranked output never contains two articles with the same
fingerprint; an entry whose fingerprint is in the cache-loaded seen-set
(or recorded earlier in the run) yields no output article (no output
article carries a fingerprint of the start-of-run seen-set); and the
two-source scenario with an identical "Budget passed" entry produces
exactly one such article. -/
theorem C3_fingerprint_dedup :
    (∀ (sources : List (String × FetchResult)) (seen0 : List String)
        (now : DateTime),
      (fetch_all_news sources seen0 now).1.Pairwise
          (fun a b => a.hash ≠ b.hash) ∧
      (fetch_all_news sources seen0 now).1.all
          (fun a => !seen0.contains a.hash) = true) ∧
    ((fetch_all_news
        [("Source A", Except.ok
            [⟨"Budget passed", "https://x/a", none, none, none, none⟩]),
         ("Source B", Except.ok
            [⟨"Budget passed", "https://x/a", none, none, none, none⟩])]
        [] ⟨2025, 1, 1, 12, 0, 0, none⟩).1.filter
          (fun a => a.title == "Budget passed")).length = 1 := by
  refine ⟨?_, by decide⟩
  intro sources seen0 now
  obtain ⟨hpw, hsub, hseen, hnot⟩ := collect_dedupInv sources seen0 now
  have hperm := List.perm_insertionSort priorityGE (collect sources seen0 now).1
  have hpw2 : (List.insertionSort priorityGE
      (collect sources seen0 now).1).Pairwise (fun a b => a.hash ≠ b.hash) :=
    (hperm.pairwise_iff (fun h => Ne.symm h)).mpr hpw
  rw [fetch_all_news_def]
  constructor
  · exact List.Pairwise.sublist (List.take_sublist _ _) hpw2
  · rw [List.all_eq_true]
    intro a ha
    have ha2 : a ∈ List.insertionSort priorityGE (collect sources seen0 now).1 :=
      (List.take_sublist _ _).subset ha
    have hm : a.hash ∉ seen0 := hnot a (hperm.subset ha2)
    simpa using hm

/-- C5: the ranked output has at most 25 articles, is sorted descending
by the key `(upsc_score, is_govt_source)`, and breaks ties stably: for
every key value, the output articles with that key are a prefix of the
key's articles in original encounter order. -/
theorem C5_sorted_truncated_stable :
    ∀ (sources : List (String × FetchResult)) (seen0 : List String)
        (now : DateTime),
      (fetch_all_news sources seen0 now).1.length ≤ 25 ∧
      (fetch_all_news sources seen0 now).1.Pairwise priorityGE ∧
      (∀ k : Nat × Bool,
        (fetch_all_news sources seen0 now).1.filter (fun a => articleKey a == k)
          <+: (collect sources seen0 now).1.filter
                (fun a => articleKey a == k)) := by
  intro sources seen0 now
  rw [fetch_all_news_def]
  refine ⟨?_, ?_, ?_⟩
  · exact List.length_take_le 25 _
  · exact List.Pairwise.sublist (List.take_sublist _ _)
      (List.sorted_insertionSort priorityGE _)
  · intro k
    have h1 := List.take_prefix 25
      (List.insertionSort priorityGE (collect sources seen0 now).1)
    have h2 := List.IsPrefix.filter (fun a => articleKey a == k) h1
    rw [insertionSort_filter_key] at h2
    exact h2

/-- C8: a failing fetch never aborts the run and never removes other
sources' articles: the pipeline result equals the result on the
successfully-fetched sources alone (a failed source contributes nothing
and everything else is unchanged); concretely, a run with one throwing
source and one good source equals the run with only the good source. -/
theorem C8_fetch_errors_are_skipped :
    (∀ (sources : List (String × FetchResult)) (seen0 : List String)
        (now : DateTime),
      fetch_all_news sources seen0 now
        = fetch_all_news (sources.filter fetchSucceeded) seen0 now) ∧
    fetch_all_news
        [("Broken feed", Except.error "connection timeout"),
         ("Source A", Except.ok
            [⟨"Budget passed", "https://x/a", none, none, none, none⟩])]
        [] ⟨2025, 1, 1, 12, 0, 0, none⟩
      = fetch_all_news
        [("Source A", Except.ok
            [⟨"Budget passed", "https://x/a", none, none, none, none⟩])]
        [] ⟨2025, 1, 1, 12, 0, 0, none⟩ := by
  have hgen : ∀ (sources : List (String × FetchResult)) (seen0 : List String)
      (now : DateTime),
      fetch_all_news sources seen0 now
        = fetch_all_news (sources.filter fetchSucceeded) seen0 now := by
    intro sources seen0 now
    rw [fetch_all_news_def, fetch_all_news_def]
    unfold collect
    rw [foldl_processSource_filter]
  exact ⟨hgen, hgen _ _ _⟩

end NewsDigest
